import Mathlib

/-!
Shallow embedding of `src/themes/prueba.py` (class `SheetsHandler`), a thin
adapter over the gspread Google-Sheets client, together with proofs about the
claims of the specification.

Modelling conventions:
* A worksheet grid is a `List (List String)`; rows and columns are 1-based in
  the API (as in gspread) and converted to 0-based list indices internally.
* The remote service is a `RemoteState`: an association list from spreadsheet
  URL to the grid of its first worksheet, plus a fault schedule.  Every remote
  primitive call consumes one entry of the fault schedule; a `some e` entry
  makes that call raise the Python exception `e` (this models transport or
  API errors, which in Python may or may not be `gspread.exceptions.GSpreadException`).
  An empty schedule means every call succeeds normally.
* Python exceptions are the inductive `PyExc`.  `AttributeError` is what
  `None.get(...)` raises; `isGSpreadException` tells which exceptions an
  `except gspread.exceptions.GSpreadException` clause catches
  (`SpreadsheetNotFound` is a subclass of `GSpreadException`).
* A method call returns a `PyResult`: the value or the escaped exception, the
  handler object after the call (Python `self`), and the remote state after
  the call (writes already performed persist even when an exception escapes).
-/

namespace Prueba

/-- Python exceptions relevant to the adapter. -/
inductive PyExc where
  | spreadsheetNotFound
  | gspreadError
  | attributeError
  | otherError
deriving DecidableEq

/-- Which exceptions an `except gspread.exceptions.GSpreadException` clause
catches: `SpreadsheetNotFound` is a subclass of `GSpreadException`;
`AttributeError` and generic non-gspread errors are not. -/
def PyExc.isGSpreadException : PyExc → Bool
  | .spreadsheetNotFound => true
  | .gspreadError => true
  | .attributeError => false
  | .otherError => false

/-- A Python value passed as `identifier_value` (the code applies `str` to it). -/
inductive PyValue where
  | str (s : String)
  | int (n : Int)
deriving DecidableEq

/-- Python `str(...)` on the modelled values. -/
def PyValue.pyStr : PyValue → String
  | .str s => s
  | .int n => toString n

/-- The grid of one worksheet: rows of cells. -/
abbrev Grid := List (List String)

/-- A gspread `Cell` position (1-based row and column). -/
structure Cell where
  row : Nat
  col : Nat
deriving DecidableEq

/-- A parsed JSON configuration object, modelled as a string-to-string map. -/
abbrev Config := List (String × String)

/-- Python `dict.get(k)`: the value at `k`, or `None` when absent. -/
def cfgGet (cfg : Config) (k : String) : Option String :=
  (cfg.find? (fun p => p.1 = k)).map (fun p => p.2)

/-- The adapter object: `self.gc` (the authenticated gspread client, `None`
until authentication succeeds) and `self.config` (the parsed configuration,
`None` when loading failed). -/
structure SheetsHandler where
  gc : Option Unit
  config : Option Config
deriving DecidableEq

/-- The local environment seen by `__init__` and `authenticate`: which config
files exist (and whether they parse), which credential files exist, and which
of those `gspread.service_account` accepts. -/
structure Env where
  configFiles : List (String × Option Config)
  credFiles : List String
  credValid : List String

/-- The remote spreadsheet service: URL to first-worksheet grid, plus the
fault schedule consumed one entry per remote call. -/
structure RemoteState where
  sheets : List (String × Grid)
  faults : List (Option PyExc)
deriving DecidableEq

/-- Consume the next entry of the fault schedule. -/
def takeFault (st : RemoteState) : Option PyExc × RemoteState :=
  match st.faults with
  | [] => (none, st)
  | f :: rest => (f, { st with faults := rest })

/-- Look the grid of a URL up in the remote state. -/
def lookupSheet (st : RemoteState) (u : String) : Option Grid :=
  (st.sheets.find? (fun p => p.1 = u)).map (fun p => p.2)

/-- The grid of a URL (empty when absent; only used after a successful open). -/
def getGrid (st : RemoteState) (u : String) : Grid :=
  (lookupSheet st u).getD []

/-- Replace the grid stored for a URL. -/
def setGrid (st : RemoteState) (u : String) (g : Grid) : RemoteState :=
  { st with sheets := st.sheets.map (fun p => if p.1 = u then (u, g) else p) }

/-- Pad a row with empty cells up to length `n`. -/
def padTo (row : List String) (n : Nat) : List String :=
  row ++ List.replicate (n - row.length) ""

/-- The cell at 1-based position `(r, c)`, when it exists. -/
def getCell (g : Grid) (r c : Nat) : Option String :=
  (g[r - 1]?).bind (fun row => row[c - 1]?)

/-- Write 1-based column `c` of a row, padding with empty cells if needed. -/
def setRowCell (row : List String) (c : Nat) (v : String) : List String :=
  (padTo row c).set (c - 1) v

/-- Write the cell at 1-based `(r, c)`, growing the grid if needed
(gspread `update_cell` semantics). -/
def setCell (g : Grid) (r c : Nat) (v : String) : Grid :=
  let g2 := g ++ List.replicate (r - g.length) []
  g2.set (r - 1) (setRowCell (g2.getD (r - 1) []) c v)

/-- Scan a row left to right for value `v`; `k` is the 1-based column of the
first entry.  Returns the 1-based column of the first match. -/
def findInRowFrom (row : List String) (v : String) (k : Nat) : Option Nat :=
  match row with
  | [] => none
  | x :: rest => if x = v then some k else findInRowFrom rest v (k + 1)

/-- gspread `worksheet.find(v)`: scan the whole grid in row-major order;
`r` is the 1-based row of the first row of `g`. -/
def findGridFrom (g : Grid) (v : String) (r : Nat) : Option Cell :=
  match g with
  | [] => none
  | row :: rest =>
    match findInRowFrom row v 1 with
    | some c => some ⟨r, c⟩
    | none => findGridFrom rest v (r + 1)

/-- gspread `worksheet.find(v, in_column=c)`: scan column `c` top to bottom;
`r` is the 1-based row of the first row of `g`. -/
def findColFrom (g : Grid) (v : String) (c : Nat) (r : Nat) : Option Cell :=
  match g with
  | [] => none
  | row :: rest =>
    if row[c - 1]? = some v then some ⟨r, c⟩ else findColFrom rest v c (r + 1)

/-- gspread `worksheet.findall(v, in_column=c)`: all matches in column `c`,
top to bottom; `r` is the 1-based row of the first row of `g`. -/
def findallColFrom (g : Grid) (v : String) (c : Nat) (r : Nat) : List Cell :=
  match g with
  | [] => []
  | row :: rest =>
    if row[c - 1]? = some v then ⟨r, c⟩ :: findallColFrom rest v c (r + 1)
    else findallColFrom rest v c (r + 1)

/-- gspread `worksheet.get_all_records()`: first row as keys, remaining rows
as values (short rows padded with the empty string). -/
def mkRecords (g : Grid) : List (List (String × String)) :=
  match g with
  | [] => []
  | headers :: rows => rows.map (fun row => headers.zip (padTo row headers.length))

/-- `gc.open_by_url(url).sheet1`: raises an injected fault if scheduled;
raises a `GSpreadException` (`NoValidUrlKeyFound`) on a `None` URL; raises
`SpreadsheetNotFound` when no spreadsheet lives at the URL. -/
def rcOpenByUrl (url : Option String) (st : RemoteState) :
    Except PyExc String × RemoteState :=
  match takeFault st with
  | (some e, st1) => (.error e, st1)
  | (none, st1) =>
    match url with
    | none => (.error .gspreadError, st1)
    | some u =>
      if (lookupSheet st1 u).isSome then (.ok u, st1)
      else (.error .spreadsheetNotFound, st1)

/-- `worksheet.get_all_records()` as a remote call. -/
def rcGetAllRecords (ws : String) (st : RemoteState) :
    Except PyExc (List (List (String × String))) × RemoteState :=
  match takeFault st with
  | (some e, st1) => (.error e, st1)
  | (none, st1) => (.ok (mkRecords (getGrid st1 ws)), st1)

/-- `worksheet.row_values(n)` as a remote call. -/
def rcRowValues (ws : String) (n : Nat) (st : RemoteState) :
    Except PyExc (List String) × RemoteState :=
  match takeFault st with
  | (some e, st1) => (.error e, st1)
  | (none, st1) => (.ok (((getGrid st1 ws)[n - 1]?).getD []), st1)

/-- `worksheet.col_values(n)` as a remote call. -/
def rcColValues (ws : String) (n : Nat) (st : RemoteState) :
    Except PyExc (List String) × RemoteState :=
  match takeFault st with
  | (some e, st1) => (.error e, st1)
  | (none, st1) => (.ok ((getGrid st1 ws).map (fun row => (row[n - 1]?).getD "")), st1)

/-- `worksheet.find(v)` as a remote call (whole-sheet row-major scan). -/
def rcFind (ws : String) (v : String) (st : RemoteState) :
    Except PyExc (Option Cell) × RemoteState :=
  match takeFault st with
  | (some e, st1) => (.error e, st1)
  | (none, st1) => (.ok (findGridFrom (getGrid st1 ws) v 1), st1)

/-- `worksheet.find(v, in_column=c)` as a remote call. -/
def rcFindInColumn (ws : String) (v : String) (c : Nat) (st : RemoteState) :
    Except PyExc (Option Cell) × RemoteState :=
  match takeFault st with
  | (some e, st1) => (.error e, st1)
  | (none, st1) => (.ok (findColFrom (getGrid st1 ws) v c 1), st1)

/-- `worksheet.findall(v, in_column=c)` as a remote call. -/
def rcFindall (ws : String) (v : String) (c : Nat) (st : RemoteState) :
    Except PyExc (List Cell) × RemoteState :=
  match takeFault st with
  | (some e, st1) => (.error e, st1)
  | (none, st1) => (.ok (findallColFrom (getGrid st1 ws) v c 1), st1)

/-- `worksheet.update_cell(r, c, v)` as a remote call. -/
def rcUpdateCell (ws : String) (r c : Nat) (v : String) (st : RemoteState) :
    Except PyExc Unit × RemoteState :=
  match takeFault st with
  | (some e, st1) => (.error e, st1)
  | (none, st1) => (.ok (), setGrid st1 ws (setCell (getGrid st1 ws) r c v))

/-- `worksheet.append_row(vals, value_input_option='USER_ENTERED')` as a
remote call. -/
def rcAppendRow (ws : String) (vals : List String) (st : RemoteState) :
    Except PyExc Unit × RemoteState :=
  match takeFault st with
  | (some e, st1) => (.error e, st1)
  | (none, st1) => (.ok (), setGrid st1 ws (getGrid st1 ws ++ [vals]))

/-- Python `try: body except gspread.exceptions.GSpreadException: return d`. -/
def catchGS {α : Type} (x : Except PyExc α × RemoteState) (d : α) :
    Except PyExc α × RemoteState :=
  match x with
  | (.ok a, st) => (.ok a, st)
  | (.error e, st) => if e.isGSpreadException then (.ok d, st) else (.error e, st)

/-- Python `try: body except GSpreadException: return d except Exception: return d`
(the pattern of `update_record`): every exception is converted to `d`. -/
def catchAll {α : Type} (x : Except PyExc α × RemoteState) (d : α) :
    Except PyExc α × RemoteState :=
  match x with
  | (.ok a, st) => (.ok a, st)
  | (.error _, st) => (.ok d, st)

/-- Decidable equality for `Except`, needed to evaluate concrete outcomes. -/
instance {ε α : Type} [DecidableEq ε] [DecidableEq α] : DecidableEq (Except ε α) := fun x y =>
  match x, y with
  | .ok a, .ok b =>
    if h : a = b then .isTrue (by rw [h]) else .isFalse (by intro hc; injection hc; exact h (by assumption))
  | .error a, .error b =>
    if h : a = b then .isTrue (by rw [h]) else .isFalse (by intro hc; injection hc; exact h (by assumption))
  | .ok _, .error _ => .isFalse (by intro hc; exact Except.noConfusion hc)
  | .error _, .ok _ => .isFalse (by intro hc; exact Except.noConfusion hc)

/-- The observable outcome of one adapter method call: the returned value or
the escaped exception, the handler afterwards, and the remote state
afterwards (partial writes persist on an escaped exception). -/
structure PyResult (α : Type) where
  result : Except PyExc α
  handler : SheetsHandler
  remote : RemoteState
deriving DecidableEq

/-- `SheetsHandler._load_config` (lines 27-45): `None` when the file does not
exist or `json.load` raises `JSONDecodeError`, else the parsed configuration. -/
def load_config (env : Env) (path : String) : Option Config :=
  match env.configFiles.find? (fun p => p.1 = path) with
  | none => none
  | some (_, none) => none
  | some (_, some cfg) => some cfg

/-- `SheetsHandler.authenticate` (lines 47-67): no-op without configuration;
no-op when the credential path is missing, empty, or the file does not
exist; sets `self.gc` when `gspread.service_account` succeeds, leaves it
unset when it raises (both exception kinds are caught). -/
def SheetsHandler.authenticate (env : Env) (self : SheetsHandler) : SheetsHandler :=
  match self.config with
  | none => self
  | some cfg =>
    match cfgGet cfg "google_credentials_path" with
    | none => self
    | some credFile =>
      if credFile = "" then self
      else if credFile ∈ env.credFiles then
        if credFile ∈ env.credValid then { self with gc := some () } else self
      else self

/-- `SheetsHandler.__init__` (lines 14-25): load the configuration, then
authenticate only when it loaded. -/
def SheetsHandler.create (env : Env) (config_path : String) : SheetsHandler :=
  let cfg := load_config env config_path
  let self : SheetsHandler := { gc := none, config := cfg }
  if cfg.isSome then self.authenticate env else self

/-- `SheetsHandler._get_worksheet` (lines 69-90): `None` without a client;
opens the spreadsheet and returns its first worksheet; `SpreadsheetNotFound`
and any other `GSpreadException` are converted to `None`; any other
exception escapes. -/
def SheetsHandler._get_worksheet (self : SheetsHandler) (sheet_url : Option String)
    (st : RemoteState) : Except PyExc (Option String) × RemoteState :=
  match self.gc with
  | none => (.ok none, st)
  | some _ =>
    match rcOpenByUrl sheet_url st with
    | (.ok u, st1) => (.ok (some u), st1)
    | (.error e, st1) =>
      if e.isGSpreadException then (.ok none, st1) else (.error e, st1)

/-- `SheetsHandler.get_sheet_records` (lines 92-109). -/
def SheetsHandler.get_sheet_records (self : SheetsHandler) (sheet_url : String)
    (st : RemoteState) : PyResult (List (List (String × String))) :=
  match self._get_worksheet (some sheet_url) st with
  | (.error e, st1) => ⟨.error e, self, st1⟩
  | (.ok none, st1) => ⟨.ok [], self, st1⟩
  | (.ok (some ws), st1) =>
    match catchGS (rcGetAllRecords ws st1) [] with
    | (r, st2) => ⟨r, self, st2⟩

/-- `SheetsHandler.get_sheet_headers` (lines 111-128). -/
def SheetsHandler.get_sheet_headers (self : SheetsHandler) (sheet_url : String)
    (st : RemoteState) : PyResult (List String) :=
  match self._get_worksheet (some sheet_url) st with
  | (.error e, st1) => ⟨.error e, self, st1⟩
  | (.ok none, st1) => ⟨.ok [], self, st1⟩
  | (.ok (some ws), st1) =>
    match catchGS (rcRowValues ws 1 st1) [] with
    | (r, st2) => ⟨r, self, st2⟩

/-- The `try` block of `update_record` (lines 152-178): find the identifier
column by a whole-sheet `find`, find `str(identifier_value)` within that
column, re-read the header row, locate `column_to_update`, write the cell. -/
def updateRecordTry (ws : String) (identifier_column : String)
    (identifier_value : PyValue) (column_to_update : String) (new_value : String)
    (st : RemoteState) : Except PyExc Bool × RemoteState :=
  match rcFind ws identifier_column st with
  | (.error e, st1) => (.error e, st1)
  | (.ok none, st1) => (.ok false, st1)
  | (.ok (some header_cell), st1) =>
    match rcFindInColumn ws identifier_value.pyStr header_cell.col st1 with
    | (.error e, st2) => (.error e, st2)
    | (.ok none, st2) => (.ok false, st2)
    | (.ok (some cell_to_find), st2) =>
      match rcRowValues ws 1 st2 with
      | (.error e, st3) => (.error e, st3)
      | (.ok headers, st3) =>
        if column_to_update ∈ headers then
          match rcUpdateCell ws cell_to_find.row
              (headers.findIdx (fun h => h = column_to_update) + 1) new_value st3 with
          | (.error e, st4) => (.error e, st4)
          | (.ok _, st4) => (.ok true, st4)
        else (.ok false, st3)

/-- `SheetsHandler.update_record` (lines 130-185): worksheet resolution is
outside the `try`; the `try` body is wrapped in a catch-all (both
`except GSpreadException` and `except Exception` return `False`). -/
def SheetsHandler.update_record (self : SheetsHandler) (sheet_url : String)
    (identifier_column : String) (identifier_value : PyValue)
    (column_to_update : String) (new_value : String) (st : RemoteState) :
    PyResult Bool :=
  match self._get_worksheet (some sheet_url) st with
  | (.error e, st1) => ⟨.error e, self, st1⟩
  | (.ok none, st1) => ⟨.ok false, self, st1⟩
  | (.ok (some ws), st1) =>
    match catchAll (updateRecordTry ws identifier_column identifier_value
        column_to_update new_value st1) false with
    | (r, st2) => ⟨r, self, st2⟩

/-- `SheetsHandler.get_all_process_numbers` (lines 187-198):
`self.config.get('procesos_sheet_url')` raises `AttributeError` when
`self.config` is `None`; on success returns `col_values(1)[1:]`. -/
def SheetsHandler.get_all_process_numbers (self : SheetsHandler)
    (st : RemoteState) : PyResult (List String) :=
  match self.config with
  | none => ⟨.error .attributeError, self, st⟩
  | some cfg =>
    match self._get_worksheet (cfgGet cfg "procesos_sheet_url") st with
    | (.error e, st1) => ⟨.error e, self, st1⟩
    | (.ok none, st1) => ⟨.ok [], self, st1⟩
    | (.ok (some ws), st1) =>
      match catchGS
          (match rcColValues ws 1 st1 with
           | (.ok vals, st2) => (.ok (vals.drop 1), st2)
           | (.error e, st2) => (.error e, st2)) [] with
      | (r, st2) => ⟨r, self, st2⟩

/-- Row transformation realised by the deactivation sweep on one row:
column 10 is set to `"NO"` exactly when it currently holds `"SI"`. -/
def deactivateRow (row : List String) : List String :=
  if row[9]? = some "SI" then row.set 9 "NO" else row

/-- The `for cell in active_cells` loop of `deactivate_all_processes`
(lines 210-211): update each found cell to `"NO"` in order. -/
def updateLoop (ws : String) (cells : List Cell) (st : RemoteState) :
    Except PyExc Unit × RemoteState :=
  match cells with
  | [] => (.ok (), st)
  | cell :: rest =>
    match rcUpdateCell ws cell.row cell.col "NO" st with
    | (.error e, st1) => (.error e, st1)
    | (.ok _, st1) => updateLoop ws rest st1

/-- The `try` block of `deactivate_all_processes` (lines 206-213): find all
`"SI"` cells in column 10, overwrite each with `"NO"`, report the count
printed at line 212 (`none` when the count is never printed). -/
def deactivateTry (ws : String) (st : RemoteState) :
    Except PyExc (Bool × Option Nat) × RemoteState :=
  match rcFindall ws "SI" 10 st with
  | (.error e, st1) => (.error e, st1)
  | (.ok active_cells, st1) =>
    match updateLoop ws active_cells st1 with
    | (.error e, st2) => (.error e, st2)
    | (.ok _, st2) => (.ok (true, some active_cells.length), st2)

/-- `SheetsHandler.deactivate_all_processes` (lines 200-216): the `Bool` is
the returned value, the `Option Nat` the count printed at line 212. -/
def SheetsHandler.deactivate_all_processes (self : SheetsHandler)
    (st : RemoteState) : PyResult (Bool × Option Nat) :=
  match self.config with
  | none => ⟨.error .attributeError, self, st⟩
  | some cfg =>
    match self._get_worksheet (cfgGet cfg "procesos_sheet_url") st with
    | (.error e, st1) => ⟨.error e, self, st1⟩
    | (.ok none, st1) => ⟨.ok (false, none), self, st1⟩
    | (.ok (some ws), st1) =>
      match catchGS (deactivateTry ws st1) (false, none) with
      | (r, st2) => ⟨r, self, st2⟩

/-- `SheetsHandler.add_new_process` (lines 218-238). -/
def SheetsHandler.add_new_process (self : SheetsHandler)
    (process_data_list : List String) (st : RemoteState) : PyResult Bool :=
  match self.config with
  | none => ⟨.error .attributeError, self, st⟩
  | some cfg =>
    match self._get_worksheet (cfgGet cfg "procesos_sheet_url") st with
    | (.error e, st1) => ⟨.error e, self, st1⟩
    | (.ok none, st1) => ⟨.ok false, self, st1⟩
    | (.ok (some ws), st1) =>
      match catchGS
          (match rcAppendRow ws process_data_list st1 with
           | (.ok _, st2) => (.ok true, st2)
           | (.error e, st2) => (.error e, st2)) false with
      | (r, st2) => ⟨r, self, st2⟩

/-! Concrete fixtures used in the worked examples: environments, handlers and
grids taken from the specification scenarios. -/

/-- An environment with no files at all: every configuration path is missing. -/
def envEmpty : Env := ⟨[], [], []⟩

/-- An environment where `config.json` exists but holds invalid JSON. -/
def envInvalid : Env := ⟨[("config.json", none)], [], []⟩

/-- An empty remote service with no scheduled faults. -/
def stEmpty : RemoteState := ⟨[], []⟩

/-- The configuration of the specification examples: only the processes URL. -/
def cfgP : Config := [("procesos_sheet_url", "purl")]

/-- A handler with an authenticated session and the example configuration. -/
def hSession : SheetsHandler := ⟨some (), some cfgP⟩

/-- The worksheet of the round-trip/update examples. -/
def gDemo : Grid :=
  [["numero_proceso", "objeto_proceso"], ["SIP-046-2025", "Compra de equipos"]]

/-- A worksheet with a duplicated identifier value in column 1. -/
def gDup : Grid :=
  [["numero_proceso", "objeto_proceso"], ["SIP-046-2025", "X"], ["SIP-046-2025", "Y"]]

/-- The processes worksheet of the listing example. -/
def gProc : Grid := [["numero_proceso"], ["A"], ["B"], ["C"]]

/-- A worksheet whose column 10 mixes the active marker with other values. -/
def gAct : Grid :=
  [["a", "b", "c", "d", "e", "f", "g", "h", "i", "SI"],
   ["a", "b", "c", "d", "e", "f", "g", "h", "i", "NO"],
   ["a", "b", "c", "d", "e", "f", "g", "h", "i", "SI"]]

/-- A worksheet with no active marker anywhere in column 10. -/
def gNoSI : Grid := [["x"], ["y", "z"]]

/-! Helper lemmas about the remote-state primitives under an empty fault
schedule (every remote call succeeds normally). -/

theorem takeFault_nil (st : RemoteState) (h : st.faults = []) : takeFault st = (none, st) := by
  cases st with
  | mk sheets faults =>
    simp only at h
    subst h
    rfl

theorem getGrid_eq (st : RemoteState) (u : String) (G : Grid)
    (hl : lookupSheet st u = some G) : getGrid st u = G := by
  unfold getGrid
  rw [hl]
  rfl

theorem rcOpenByUrl_ok (u : String) (st : RemoteState) (G : Grid)
    (hf : st.faults = []) (hl : lookupSheet st u = some G) :
    rcOpenByUrl (some u) st = (.ok u, st) := by
  unfold rcOpenByUrl
  rw [takeFault_nil st hf]
  simp [hl]

theorem rcOpenByUrl_notfound (u : String) (st : RemoteState)
    (hf : st.faults = []) (hl : lookupSheet st u = none) :
    rcOpenByUrl (some u) st = (.error .spreadsheetNotFound, st) := by
  unfold rcOpenByUrl
  rw [takeFault_nil st hf]
  simp [hl]

theorem rcGetAllRecords_ok (ws : String) (st : RemoteState) (hf : st.faults = []) :
    rcGetAllRecords ws st = (.ok (mkRecords (getGrid st ws)), st) := by
  unfold rcGetAllRecords
  rw [takeFault_nil st hf]

theorem rcRowValues_ok (ws : String) (n : Nat) (st : RemoteState) (hf : st.faults = []) :
    rcRowValues ws n st = (.ok (((getGrid st ws)[n - 1]?).getD []), st) := by
  unfold rcRowValues
  rw [takeFault_nil st hf]

theorem rcColValues_ok (ws : String) (n : Nat) (st : RemoteState) (hf : st.faults = []) :
    rcColValues ws n st =
      (.ok ((getGrid st ws).map (fun row => (row[n - 1]?).getD "")), st) := by
  unfold rcColValues
  rw [takeFault_nil st hf]

theorem rcFind_ok (ws : String) (v : String) (st : RemoteState) (hf : st.faults = []) :
    rcFind ws v st = (.ok (findGridFrom (getGrid st ws) v 1), st) := by
  unfold rcFind
  rw [takeFault_nil st hf]

theorem rcFindInColumn_ok (ws : String) (v : String) (c : Nat) (st : RemoteState)
    (hf : st.faults = []) :
    rcFindInColumn ws v c st = (.ok (findColFrom (getGrid st ws) v c 1), st) := by
  unfold rcFindInColumn
  rw [takeFault_nil st hf]

theorem rcFindall_ok (ws : String) (v : String) (c : Nat) (st : RemoteState)
    (hf : st.faults = []) :
    rcFindall ws v c st = (.ok (findallColFrom (getGrid st ws) v c 1), st) := by
  unfold rcFindall
  rw [takeFault_nil st hf]

theorem rcUpdateCell_ok (ws : String) (r c : Nat) (v : String) (st : RemoteState)
    (hf : st.faults = []) :
    rcUpdateCell ws r c v st = (.ok (), setGrid st ws (setCell (getGrid st ws) r c v)) := by
  unfold rcUpdateCell
  rw [takeFault_nil st hf]

/-! Helper lemmas about `_get_worksheet`. -/

theorem get_worksheet_gc_none (self : SheetsHandler) (url : Option String)
    (st : RemoteState) (h : self.gc = none) :
    self._get_worksheet url st = (.ok none, st) := by
  unfold SheetsHandler._get_worksheet
  rw [h]

theorem get_worksheet_ok (self : SheetsHandler) (u : String) (st : RemoteState) (G : Grid)
    (hgc : self.gc = some ()) (hf : st.faults = []) (hl : lookupSheet st u = some G) :
    self._get_worksheet (some u) st = (.ok (some u), st) := by
  unfold SheetsHandler._get_worksheet
  rw [hgc, rcOpenByUrl_ok u st G hf hl]

theorem get_worksheet_notfound (self : SheetsHandler) (u : String) (st : RemoteState)
    (hgc : self.gc = some ()) (hf : st.faults = []) (hl : lookupSheet st u = none) :
    self._get_worksheet (some u) st = (.ok none, st) := by
  unfold SheetsHandler._get_worksheet
  rw [hgc, rcOpenByUrl_notfound u st hf hl]
  rfl

/-! Helper lemmas about `setGrid` and `lookupSheet`. -/

theorem setGrid_faults (st : RemoteState) (u : String) (g : Grid) :
    (setGrid st u g).faults = st.faults := rfl

theorem find?_map_update_self (l : List (String × Grid)) (u : String) (g : Grid)
    (h : (l.find? (fun p => p.1 = u)).isSome) :
    (l.map (fun p => if p.1 = u then (u, g) else p)).find? (fun p => p.1 = u) =
      some (u, g) := by
  induction l with
  | nil => simp at h
  | cons p t ih =>
    by_cases hp : p.1 = u
    · simp [hp]
    · rw [List.map_cons, if_neg hp]
      rw [List.find?_cons_of_neg _ (by simpa using hp)]
      rw [List.find?_cons_of_neg _ (by simpa using hp)] at h
      exact ih h

theorem find?_map_update_other (l : List (String × Grid)) (u u' : String) (g : Grid)
    (h : u' ≠ u) :
    (l.map (fun p => if p.1 = u then (u, g) else p)).find? (fun p => p.1 = u') =
      l.find? (fun p => p.1 = u') := by
  induction l with
  | nil => rfl
  | cons p t ih =>
    by_cases hp : p.1 = u
    · rw [List.map_cons, if_pos hp]
      have h1 : ¬(u = u') := fun hc => h hc.symm
      have h2 : ¬(p.1 = u') := by rw [hp]; exact h1
      rw [List.find?_cons_of_neg _ (by simpa using h1),
        List.find?_cons_of_neg _ (by simpa using h2)]
      exact ih
    · rw [List.map_cons, if_neg hp]
      by_cases hq : p.1 = u'
      · rw [List.find?_cons_of_pos _ (by simpa using hq),
          List.find?_cons_of_pos _ (by simpa using hq)]
      · rw [List.find?_cons_of_neg _ (by simpa using hq),
          List.find?_cons_of_neg _ (by simpa using hq)]
        exact ih

theorem lookupSheet_setGrid_self (st : RemoteState) (u : String) (g G0 : Grid)
    (h : lookupSheet st u = some G0) : lookupSheet (setGrid st u g) u = some g := by
  unfold lookupSheet at h
  unfold lookupSheet setGrid
  have hs : (st.sheets.find? (fun p => p.1 = u)).isSome := by
    cases hf : st.sheets.find? (fun p => p.1 = u) with
    | none => rw [hf] at h; simp at h
    | some p => rfl
  rw [find?_map_update_self st.sheets u g hs]
  rfl

theorem lookupSheet_setGrid_other (st : RemoteState) (u u' : String) (g : Grid)
    (h : u' ≠ u) : lookupSheet (setGrid st u g) u' = lookupSheet st u' := by
  unfold lookupSheet setGrid
  rw [find?_map_update_other st.sheets u u' g h]

/-! Characterisations of the scan functions (`worksheet.find`, `findall`). -/

theorem findInRowFrom_none (row : List String) (v : String) (k : Nat)
    (h : findInRowFrom row v k = none) : ∀ j : Nat, row[j]? ≠ some v := by
  induction row generalizing k with
  | nil => intro j; simp
  | cons x rest ih =>
    intro j
    unfold findInRowFrom at h
    by_cases hx : x = v
    · rw [if_pos hx] at h; exact absurd h (by simp)
    · rw [if_neg hx] at h
      cases j with
      | zero => simp [hx]
      | succ j2 => simpa using ih (k + 1) h j2

theorem findInRowFrom_some (row : List String) (v : String) (k c : Nat)
    (h : findInRowFrom row v k = some c) :
    k ≤ c ∧ row[c - k]? = some v ∧ ∀ j, j < c - k → row[j]? ≠ some v := by
  induction row generalizing k with
  | nil => simp [findInRowFrom] at h
  | cons x rest ih =>
    unfold findInRowFrom at h
    by_cases hx : x = v
    · rw [if_pos hx] at h
      injection h with hkc
      subst hkc
      refine ⟨Nat.le_refl _, ?_, ?_⟩
      · simp [Nat.sub_self, hx]
      · intro j hj
        omega
    · rw [if_neg hx] at h
      obtain ⟨hkc, hget, hlt⟩ := ih (k + 1) h
      refine ⟨by omega, ?_, ?_⟩
      · have he : c - k = (c - (k + 1)) + 1 := by omega
        rw [he]
        simpa using hget
      · intro j hj
        cases j with
        | zero => simp [hx]
        | succ j2 =>
          have : j2 < c - (k + 1) := by omega
          simpa using hlt j2 this

theorem findGridFrom_none (g : Grid) (v : String) (r : Nat)
    (h : findGridFrom g v r = none) :
    ∀ i j : Nat, (g[i]?.bind (fun row => row[j]?)) ≠ some v := by
  induction g generalizing r with
  | nil => intro i j; simp
  | cons row rest ih =>
    unfold findGridFrom at h
    cases hr : findInRowFrom row v 1 with
    | some c => rw [hr] at h; exact absurd h (by simp)
    | none =>
      rw [hr] at h
      intro i j
      cases i with
      | zero => simpa using findInRowFrom_none row v 1 hr j
      | succ i2 => simpa using ih (r + 1) h i2 j

theorem findGridFrom_some (g : Grid) (v : String) (r : Nat) (cell : Cell)
    (h : findGridFrom g v r = some cell) :
    r ≤ cell.row ∧ 1 ≤ cell.col ∧
    (g[cell.row - r]?.bind (fun row => row[cell.col - 1]?)) = some v ∧
    (∀ i, i < cell.row - r → ∀ j : Nat, g[i]?.bind (fun row => row[j]?) ≠ some v) ∧
    (∀ j, j < cell.col - 1 → g[cell.row - r]?.bind (fun row => row[j]?) ≠ some v) := by
  induction g generalizing r with
  | nil => simp [findGridFrom] at h
  | cons row rest ih =>
    unfold findGridFrom at h
    cases hr : findInRowFrom row v 1 with
    | some c =>
      rw [hr] at h
      injection h with hcell
      obtain ⟨h1c, hget, hlt⟩ := findInRowFrom_some row v 1 c hr
      subst hcell
      dsimp only
      refine ⟨Nat.le_refl _, h1c, ?_, ?_, ?_⟩
      · simpa [Nat.sub_self] using hget
      · intro i hi
        omega
      · intro j hj
        simpa [Nat.sub_self] using hlt j hj
    | none =>
      rw [hr] at h
      obtain ⟨hrc, hcol1, hget, hrows, hcols⟩ := ih (r + 1) h
      have he : cell.row - r = (cell.row - (r + 1)) + 1 := by omega
      refine ⟨by omega, hcol1, ?_, ?_, ?_⟩
      · rw [he]
        simpa using hget
      · intro i hi j
        cases i with
        | zero => simpa using findInRowFrom_none row v 1 hr j
        | succ i2 =>
          have hi2 : i2 < cell.row - (r + 1) := by omega
          simpa using hrows i2 hi2 j
      · rw [he]
        simpa using hcols

theorem findColFrom_some (g : Grid) (v : String) (c r : Nat) (cell : Cell)
    (h : findColFrom g v c r = some cell) :
    cell.col = c ∧ r ≤ cell.row ∧
    (g[cell.row - r]?.bind (fun row => row[c - 1]?)) = some v ∧
    ∀ i, i < cell.row - r → g[i]?.bind (fun row => row[c - 1]?) ≠ some v := by
  induction g generalizing r with
  | nil => simp [findColFrom] at h
  | cons row rest ih =>
    unfold findColFrom at h
    by_cases hrow : row[c - 1]? = some v
    · rw [if_pos hrow] at h
      injection h with hcell
      subst hcell
      dsimp only
      refine ⟨rfl, Nat.le_refl _, ?_, ?_⟩
      · simpa [Nat.sub_self] using hrow
      · intro i hi
        omega
    · rw [if_neg hrow] at h
      obtain ⟨hcol, hrc, hget, hlt⟩ := ih (r + 1) h
      have he : cell.row - r = (cell.row - (r + 1)) + 1 := by omega
      refine ⟨hcol, by omega, ?_, ?_⟩
      · rw [he]
        simpa using hget
      · intro i hi
        cases i with
        | zero => simpa using hrow
        | succ i2 =>
          have : i2 < cell.row - (r + 1) := by omega
          simpa using hlt i2 this

theorem findColFrom_none_of (g : Grid) (v : String) (c r : Nat) :
    (∀ i : Nat, g[i]?.bind (fun row => row[c - 1]?) ≠ some v) →
    findColFrom g v c r = none := by
  induction g generalizing r with
  | nil => intro h; rfl
  | cons row rest ih =>
    intro h
    unfold findColFrom
    have h0 : ¬(row[c - 1]? = some v) := by simpa using h 0
    rw [if_neg h0]
    apply ih (r + 1)
    intro i
    simpa using h (i + 1)

theorem findallColFrom_nil_of (g : Grid) (v : String) (c r : Nat) :
    (∀ i : Nat, g[i]?.bind (fun row => row[c - 1]?) ≠ some v) →
    findallColFrom g v c r = [] := by
  induction g generalizing r with
  | nil => intro h; rfl
  | cons row rest ih =>
    intro h
    unfold findallColFrom
    have h0 : ¬(row[c - 1]? = some v) := by simpa using h 0
    rw [if_neg h0]
    apply ih (r + 1)
    intro i
    simpa using h (i + 1)

theorem findallColFrom_length (g : Grid) (v : String) (c r : Nat) :
    (findallColFrom g v c r).length =
      g.countP (fun row => decide (row[c - 1]? = some v)) := by
  induction g generalizing r with
  | nil => rfl
  | cons row rest ih =>
    unfold findallColFrom
    by_cases hrow : row[c - 1]? = some v
    · rw [if_pos hrow, List.countP_cons_of_pos _ _ (by simpa using hrow)]
      simp [ih (r + 1)]
    · rw [if_neg hrow, List.countP_cons_of_neg _ _ (by simpa using hrow)]
      exact ih (r + 1)

/-! Cell-level lemmas about grid writes. -/

theorem setRowCell_inbounds (row : List String) (c : Nat) (v : String)
    (h2 : c ≤ row.length) : setRowCell row c v = row.set (c - 1) v := by
  unfold setRowCell padTo
  have hz : c - row.length = 0 := by omega
  rw [hz]
  simp

theorem setCell_middle (pre rest : Grid) (row : List String) (c : Nat) (v : String)
    (h2 : c ≤ row.length) :
    setCell (pre ++ row :: rest) (pre.length + 1) c v =
      pre ++ (row.set (c - 1) v) :: rest := by
  unfold setCell
  have hz : pre.length + 1 - (pre ++ row :: rest).length = 0 := by
    simp
  rw [hz]
  simp only [List.replicate_zero, List.append_nil, Nat.add_sub_cancel]
  have hget : (pre ++ row :: rest).getD pre.length [] = row := by
    unfold List.getD
    rw [List.get?_eq_getElem?, List.getElem?_append_right (Nat.le_refl _), Nat.sub_self]
    simp
  rw [hget, setRowCell_inbounds row c v h2,
    List.set_append_right _ _ (Nat.le_refl _), Nat.sub_self]
  rfl

theorem getCell_map_deactivateRow (G : Grid) (r c : Nat) :
    getCell (G.map deactivateRow) r c =
      if c = 10 ∧ getCell G r 10 = some "SI" then some "NO" else getCell G r c := by
  unfold getCell
  rw [List.getElem?_map]
  cases hrow : G[r - 1]? with
  | none => simp
  | some row =>
    simp only [Option.map_some', Option.some_bind]
    unfold deactivateRow
    by_cases h9 : row[9]? = some "SI"
    · rw [if_pos h9]
      by_cases hc : c = 10
      · subst hc
        have hlen : 9 < row.length := by
          rcases List.getElem?_eq_some_iff.mp h9 with ⟨hl, _⟩
          exact hl
        simp [h9, List.getElem?_set_self hlen]
      · have hne : (9 : Nat) ≠ c - 1 := by omega
        rw [List.getElem?_set_ne hne]
        simp [hc]
    · rw [if_neg h9]
      simp [h9]

/-! The deactivation sweep: running the update loop over the cells found in
column 10 rewrites exactly the `"SI"` cells of column 10 to `"NO"`. -/

theorem findallColFrom_cons (row : List String) (rest : Grid) (v : String) (c r : Nat) :
    findallColFrom (row :: rest) v c r =
      if row[c - 1]? = some v then
        (⟨r, c⟩ : Cell) :: findallColFrom rest v c (r + 1)
      else findallColFrom rest v c (r + 1) := rfl

theorem updateLoop_deactivate (ws : String) (post : Grid) :
    ∀ (pre : Grid) (st : RemoteState),
      st.faults = [] → lookupSheet st ws = some (pre ++ post) →
      ∃ st2,
        updateLoop ws (findallColFrom post "SI" 10 (pre.length + 1)) st = (.ok (), st2) ∧
        st2.faults = [] ∧
        lookupSheet st2 ws = some (pre ++ post.map deactivateRow) ∧
        (∀ u : String, u ≠ ws → lookupSheet st2 u = lookupSheet st u) := by
  induction post with
  | nil =>
    intro pre st hf hl
    exact ⟨st, rfl, hf, by simpa using hl, fun u _ => rfl⟩
  | cons row rest ih =>
    intro pre st hf hl
    by_cases h9 : row[9]? = some "SI"
    · have h9' : row[(10 : Nat) - 1]? = some "SI" := by simpa using h9
      rw [findallColFrom_cons, if_pos h9']
      unfold updateLoop
      dsimp only
      rw [rcUpdateCell_ok ws (pre.length + 1) 10 "NO" st hf, getGrid_eq st ws _ hl]
      have hlen : (10 : Nat) ≤ row.length := by
        rcases List.getElem?_eq_some_iff.mp h9 with ⟨hl9, _⟩
        omega
      rw [setCell_middle pre rest row 10 "NO" hlen]
      have h109 : (10 : Nat) - 1 = 9 := rfl
      rw [h109]
      have hf1 : (setGrid st ws (pre ++ row.set 9 "NO" :: rest)).faults = [] := by
        rw [setGrid_faults]
        exact hf
      have hl1 : lookupSheet (setGrid st ws (pre ++ row.set 9 "NO" :: rest)) ws =
          some ((pre ++ [row.set 9 "NO"]) ++ rest) := by
        rw [lookupSheet_setGrid_self st ws _ _ hl]
        simp
      obtain ⟨st2, hloop, hf2, hl2, hoth⟩ :=
        ih (pre ++ [row.set 9 "NO"]) (setGrid st ws (pre ++ row.set 9 "NO" :: rest)) hf1 hl1
      have hlen2 : (pre ++ [row.set 9 "NO"]).length + 1 = pre.length + 1 + 1 := by simp
      rw [hlen2] at hloop
      refine ⟨st2, hloop, hf2, ?_, ?_⟩
      · rw [hl2]
        have hd : deactivateRow row = row.set 9 "NO" := by
          unfold deactivateRow
          rw [if_pos h9]
        simp [hd]
      · intro u hu
        rw [hoth u hu, lookupSheet_setGrid_other st ws u _ hu]
    · have h9' : ¬(row[(10 : Nat) - 1]? = some "SI") := by simpa using h9
      rw [findallColFrom_cons, if_neg h9']
      obtain ⟨st2, hloop, hf2, hl2, hoth⟩ :=
        ih (pre ++ [row]) st hf (by simpa using hl)
      have hlen2 : (pre ++ [row]).length + 1 = pre.length + 1 + 1 := by simp
      rw [hlen2] at hloop
      refine ⟨st2, hloop, hf2, ?_, hoth⟩
      rw [hl2]
      have hd : deactivateRow row = row := by
        unfold deactivateRow
        rw [if_neg h9]
      simp [hd]

/-- Complete evaluation of `deactivate_all_processes` on a fault-free remote
state for a handler with a session and a configured processes URL. -/
theorem deactivate_run (self : SheetsHandler) (cfg : Config) (url : String) (G : Grid)
    (st : RemoteState) (hgc : self.gc = some ()) (hcfg : self.config = some cfg)
    (hurl : cfgGet cfg "procesos_sheet_url" = some url)
    (hl : lookupSheet st url = some G) (hf : st.faults = []) :
    ∃ st2,
      self.deactivate_all_processes st =
        ⟨.ok (true, some (G.countP (fun row => decide (row[9]? = some "SI")))), self, st2⟩ ∧
      st2.faults = [] ∧ lookupSheet st2 url = some (G.map deactivateRow) ∧
      (∀ u : String, u ≠ url → lookupSheet st2 u = lookupSheet st u) := by
  obtain ⟨st2, hloop, hf2, hl2, hoth⟩ :=
    updateLoop_deactivate url G [] st hf (by simpa using hl)
  refine ⟨st2, ?_, hf2, by simpa using hl2, hoth⟩
  unfold SheetsHandler.deactivate_all_processes
  simp only [hcfg, hurl, get_worksheet_ok self url st G hgc hf hl]
  unfold deactivateTry
  simp only [rcFindall_ok url "SI" 10 st hf, getGrid_eq st url G hl]
  simp only [List.length_nil, Nat.zero_add] at hloop
  simp only [hloop]
  simp [findallColFrom_length, catchGS]

/-! Error-propagation helpers: which exceptions can escape the adapter. -/

theorem catchGS_error {α : Type} (x : Except PyExc α × RemoteState) (d : α) (e : PyExc)
    (st2 : RemoteState) (h : catchGS x d = (.error e, st2)) :
    e.isGSpreadException = false := by
  rcases x with ⟨r, s⟩
  cases r with
  | ok a => simp [catchGS] at h
  | error e2 =>
    simp only [catchGS] at h
    by_cases hg : e2.isGSpreadException
    · rw [if_pos hg] at h
      simp at h
    · rw [if_neg hg] at h
      simp at h
      obtain ⟨he, _⟩ := h
      subst he
      simpa using hg

theorem catchAll_ok {α : Type} (x : Except PyExc α × RemoteState) (d : α) :
    ∃ a st2, catchAll x d = (.ok a, st2) := by
  rcases x with ⟨r, s⟩
  cases r with
  | ok a => exact ⟨a, s, rfl⟩
  | error e => exact ⟨d, s, rfl⟩

theorem get_worksheet_error (self : SheetsHandler) (url : Option String)
    (st st2 : RemoteState) (e : PyExc)
    (h : self._get_worksheet url st = (.error e, st2)) :
    e.isGSpreadException = false := by
  unfold SheetsHandler._get_worksheet at h
  split at h
  · simp at h
  · split at h
    · simp at h
    · rename_i e2 st1 hoEq
      by_cases hg : e2.isGSpreadException
      · rw [if_pos hg] at h
        simp at h
      · rw [if_neg hg] at h
        simp at h
        obtain ⟨he, _⟩ := h
        subst he
        simpa using hg

theorem no_gspread_escape_records (self : SheetsHandler) (url : String)
    (st : RemoteState) (e : PyExc)
    (h : (self.get_sheet_records url st).result = .error e) :
    e.isGSpreadException = false := by
  unfold SheetsHandler.get_sheet_records at h
  split at h
  · rename_i e2 st1 hgw
    simp at h
    subst h
    exact get_worksheet_error self (some url) st _ _ hgw
  · simp at h
  · rename_i ws st1 hgw
    rcases hc : catchGS (rcGetAllRecords ws st1) [] with ⟨r2, s2⟩
    rw [hc] at h
    simp at h
    subst h
    exact catchGS_error _ _ _ _ hc

theorem no_gspread_escape_headers (self : SheetsHandler) (url : String)
    (st : RemoteState) (e : PyExc)
    (h : (self.get_sheet_headers url st).result = .error e) :
    e.isGSpreadException = false := by
  unfold SheetsHandler.get_sheet_headers at h
  split at h
  · rename_i e2 st1 hgw
    simp at h
    subst h
    exact get_worksheet_error self (some url) st _ _ hgw
  · simp at h
  · rename_i ws st1 hgw
    rcases hc : catchGS (rcRowValues ws 1 st1) [] with ⟨r2, s2⟩
    rw [hc] at h
    simp at h
    subst h
    exact catchGS_error _ _ _ _ hc

theorem no_gspread_escape_update (self : SheetsHandler) (url ic : String) (iv : PyValue)
    (cu nv : String) (st : RemoteState) (e : PyExc)
    (h : (self.update_record url ic iv cu nv st).result = .error e) :
    e.isGSpreadException = false := by
  unfold SheetsHandler.update_record at h
  split at h
  · rename_i e2 st1 hgw
    simp at h
    subst h
    exact get_worksheet_error self (some url) st _ _ hgw
  · simp at h
  · rename_i ws st1 hgw
    obtain ⟨a, s2, hca⟩ := catchAll_ok (updateRecordTry ws ic iv cu nv st1) false
    rw [hca] at h
    simp at h

theorem no_gspread_escape_processes (self : SheetsHandler)
    (st : RemoteState) (e : PyExc)
    (h : (self.get_all_process_numbers st).result = .error e) :
    e.isGSpreadException = false := by
  unfold SheetsHandler.get_all_process_numbers at h
  split at h
  · simp at h
    subst h
    rfl
  · rename_i cfg hcfg
    split at h
    · rename_i e2 st1 hgw
      simp at h
      subst h
      exact get_worksheet_error self _ st _ _ hgw
    · simp at h
    · rename_i ws st1 hgw
      rcases hc : catchGS
          (match rcColValues ws 1 st1 with
           | (.ok vals, st2) => (.ok (vals.drop 1), st2)
           | (.error e2, st2) => (.error e2, st2)) ([] : List String) with ⟨r2, s2⟩
      rw [hc] at h
      simp at h
      subst h
      exact catchGS_error _ _ _ _ hc

theorem no_gspread_escape_deactivate (self : SheetsHandler)
    (st : RemoteState) (e : PyExc)
    (h : (self.deactivate_all_processes st).result = .error e) :
    e.isGSpreadException = false := by
  unfold SheetsHandler.deactivate_all_processes at h
  split at h
  · simp at h
    subst h
    rfl
  · rename_i cfg hcfg
    split at h
    · rename_i e2 st1 hgw
      simp at h
      subst h
      exact get_worksheet_error self _ st _ _ hgw
    · simp at h
    · rename_i ws st1 hgw
      rcases hc : catchGS (deactivateTry ws st1) (false, none) with ⟨r2, s2⟩
      rw [hc] at h
      simp at h
      subst h
      exact catchGS_error _ _ _ _ hc

theorem no_gspread_escape_add (self : SheetsHandler) (vals : List String)
    (st : RemoteState) (e : PyExc)
    (h : (self.add_new_process vals st).result = .error e) :
    e.isGSpreadException = false := by
  unfold SheetsHandler.add_new_process at h
  split at h
  · simp at h
    subst h
    rfl
  · rename_i cfg hcfg
    split at h
    · rename_i e2 st1 hgw
      simp at h
      subst h
      exact get_worksheet_error self _ st _ _ hgw
    · simp at h
    · rename_i ws st1 hgw
      rcases hc : catchGS
          (match rcAppendRow ws vals st1 with
           | (.ok a, st2) => (.ok true, st2)
           | (.error e2, st2) => (.error e2, st2)) false with ⟨r2, s2⟩
      rw [hc] at h
      simp at h
      subst h
      exact catchGS_error _ _ _ _ hc

theorem update_record_total_catch (self : SheetsHandler) (url ic : String) (iv : PyValue)
    (cu nv : String) (st st1 : RemoteState) (ws : String)
    (hgw : self._get_worksheet (some url) st = (.ok (some ws), st1)) :
    ∃ b, (self.update_record url ic iv cu nv st).result = .ok b := by
  unfold SheetsHandler.update_record
  simp only [hgw]
  obtain ⟨a, s2, hca⟩ := catchAll_ok (updateRecordTry ws ic iv cu nv st1) false
  simp only [hca]
  exact ⟨a, rfl⟩

/-! Run helpers for `update_record` on a fault-free remote. -/

theorem update_record_of_findNone (self : SheetsHandler) (url ic : String) (iv : PyValue)
    (cu nv : String) (st : RemoteState) (G : Grid)
    (hgc : self.gc = some ()) (hl : lookupSheet st url = some G) (hf : st.faults = [])
    (hfind : findGridFrom G ic 1 = none) :
    self.update_record url ic iv cu nv st = ⟨.ok false, self, st⟩ := by
  unfold SheetsHandler.update_record
  simp only [get_worksheet_ok self url st G hgc hf hl]
  unfold updateRecordTry
  simp only [rcFind_ok url ic st hf, getGrid_eq st url G hl, hfind]
  rfl

theorem update_record_of_colMiss (self : SheetsHandler) (url ic : String) (iv : PyValue)
    (cu nv : String) (st : RemoteState) (G : Grid) (hc : Cell)
    (hgc : self.gc = some ()) (hl : lookupSheet st url = some G) (hf : st.faults = [])
    (hfind : findGridFrom G ic 1 = some hc)
    (hmiss : findColFrom G iv.pyStr hc.col 1 = none) :
    self.update_record url ic iv cu nv st = ⟨.ok false, self, st⟩ := by
  unfold SheetsHandler.update_record
  simp only [get_worksheet_ok self url st G hgc hf hl]
  unfold updateRecordTry
  simp only [rcFind_ok url ic st hf, getGrid_eq st url G hl, hfind,
    rcFindInColumn_ok url iv.pyStr hc.col st hf, hmiss]
  rfl

/-! Frame helpers: no data operation ever modifies the handler object. -/

theorem get_sheet_records_handler (self : SheetsHandler) (url : String)
    (st : RemoteState) : (self.get_sheet_records url st).handler = self := by
  unfold SheetsHandler.get_sheet_records
  split
  · rfl
  · rfl
  · rename_i ws st1 hgw
    rcases hc : catchGS (rcGetAllRecords ws st1) [] with ⟨r2, s2⟩
    rfl

theorem get_sheet_headers_handler (self : SheetsHandler) (url : String)
    (st : RemoteState) : (self.get_sheet_headers url st).handler = self := by
  unfold SheetsHandler.get_sheet_headers
  split
  · rfl
  · rfl
  · rename_i ws st1 hgw
    rcases hc : catchGS (rcRowValues ws 1 st1) [] with ⟨r2, s2⟩
    rfl

theorem update_record_handler (self : SheetsHandler) (url ic : String) (iv : PyValue)
    (cu nv : String) (st : RemoteState) :
    (self.update_record url ic iv cu nv st).handler = self := by
  unfold SheetsHandler.update_record
  split
  · rfl
  · rfl
  · rename_i ws st1 hgw
    rcases hc : catchAll (updateRecordTry ws ic iv cu nv st1) false with ⟨r2, s2⟩
    rfl

theorem get_all_process_numbers_handler (self : SheetsHandler) (st : RemoteState) :
    (self.get_all_process_numbers st).handler = self := by
  unfold SheetsHandler.get_all_process_numbers
  split
  · rfl
  · rename_i cfg hcfg
    split
    · rfl
    · rfl
    · rename_i ws st1 hgw
      rcases hc : catchGS
          (match rcColValues ws 1 st1 with
           | (.ok vals, st2) => (.ok (vals.drop 1), st2)
           | (.error e, st2) => (.error e, st2)) ([] : List String) with ⟨r2, s2⟩
      rfl

theorem deactivate_all_processes_handler (self : SheetsHandler) (st : RemoteState) :
    (self.deactivate_all_processes st).handler = self := by
  unfold SheetsHandler.deactivate_all_processes
  split
  · rfl
  · rename_i cfg hcfg
    split
    · rfl
    · rfl
    · rename_i ws st1 hgw
      rcases hc : catchGS (deactivateTry ws st1) (false, none) with ⟨r2, s2⟩
      rfl

theorem add_new_process_handler (self : SheetsHandler) (vals : List String)
    (st : RemoteState) : (self.add_new_process vals st).handler = self := by
  unfold SheetsHandler.add_new_process
  split
  · rfl
  · rename_i cfg hcfg
    split
    · rfl
    · rfl
    · rename_i ws st1 hgw
      rcases hc : catchGS
          (match rcAppendRow ws vals st1 with
           | (.ok a, st2) => (.ok true, st2)
           | (.error e, st2) => (.error e, st2)) false with ⟨r2, s2⟩
      rfl

/-! Claim theorems. -/

/-- C1: the claim asserts that for a missing or invalid configuration, `create`
does not raise, yields an adapter with no session, and all seven public
operations return their empty/false sentinels.  The code violates the last
part: `__init__` indeed never raises and leaves `gc` and `config` unset,
`authenticate` is a no-op, and the three URL-taking operations return their
sentinels, but `get_all_process_numbers`, `deactivate_all_processes` and
`add_new_process` evaluate `self.config.get(...)` on `None` and raise
`AttributeError` instead of returning their sentinels. -/
theorem C1_initialization_code_bug :
    (SheetsHandler.create envEmpty "config.json").config = none ∧
    (SheetsHandler.create envEmpty "config.json").gc = none ∧
    (SheetsHandler.create envInvalid "config.json").config = none ∧
    (SheetsHandler.create envInvalid "config.json").gc = none ∧
    (SheetsHandler.create envEmpty "config.json").authenticate envEmpty =
      SheetsHandler.create envEmpty "config.json" ∧
    ((SheetsHandler.create envEmpty "config.json").get_sheet_records "u" stEmpty).result =
      .ok [] ∧
    ((SheetsHandler.create envEmpty "config.json").get_sheet_headers "u" stEmpty).result =
      .ok [] ∧
    ((SheetsHandler.create envEmpty "config.json").update_record "u" "a" (.str "b") "c" "d"
        stEmpty).result = .ok false ∧
    ((SheetsHandler.create envEmpty "config.json").get_all_process_numbers stEmpty).result =
      .error .attributeError ∧
    ((SheetsHandler.create envEmpty "config.json").deactivate_all_processes stEmpty).result =
      .error .attributeError ∧
    ((SheetsHandler.create envEmpty "config.json").add_new_process ["x"] stEmpty).result =
      .error .attributeError :=
  ⟨rfl, rfl, rfl, rfl, rfl, rfl, rfl, rfl, rfl, rfl, rfl⟩

/-- C2 counterexample: the claim asserts every error in every public operation
is caught, including errors that are not the remote client's own exception
type.  But in `get_sheet_records` only `GSpreadException` is caught: a
non-client error raised by `get_all_records` (here injected by the fault
schedule after a successful open) escapes to the caller. -/
theorem C2_counterexample_nonclient_error_escapes :
    ((SheetsHandler.mk (some ()) (some [])).get_sheet_records "u"
        ⟨[("u", [[]])], [none, some .otherError]⟩).result = .error .otherError := by
  decide

/-- C2 amended: in every public operation, an error of the remote client's own
exception type (`GSpreadException`, including `SpreadsheetNotFound`) never
escapes — any error that does escape is not of the client's exception type;
and `update_record` alone catches every error raised after its worksheet is
resolved, so once `_get_worksheet` succeeds it always returns a boolean. -/
theorem C2_amended_error_catching :
    (∀ (self : SheetsHandler) (url : String) (st : RemoteState) (e : PyExc),
      (self.get_sheet_records url st).result = .error e →
      e.isGSpreadException = false) ∧
    (∀ (self : SheetsHandler) (url : String) (st : RemoteState) (e : PyExc),
      (self.get_sheet_headers url st).result = .error e →
      e.isGSpreadException = false) ∧
    (∀ (self : SheetsHandler) (url ic : String) (iv : PyValue) (cu nv : String)
        (st : RemoteState) (e : PyExc),
      (self.update_record url ic iv cu nv st).result = .error e →
      e.isGSpreadException = false) ∧
    (∀ (self : SheetsHandler) (st : RemoteState) (e : PyExc),
      (self.get_all_process_numbers st).result = .error e →
      e.isGSpreadException = false) ∧
    (∀ (self : SheetsHandler) (st : RemoteState) (e : PyExc),
      (self.deactivate_all_processes st).result = .error e →
      e.isGSpreadException = false) ∧
    (∀ (self : SheetsHandler) (vals : List String) (st : RemoteState) (e : PyExc),
      (self.add_new_process vals st).result = .error e →
      e.isGSpreadException = false) ∧
    (∀ (self : SheetsHandler) (url ic : String) (iv : PyValue) (cu nv : String)
        (st st1 : RemoteState) (ws : String),
      self._get_worksheet (some url) st = (.ok (some ws), st1) →
      ∃ b, (self.update_record url ic iv cu nv st).result = .ok b) :=
  ⟨no_gspread_escape_records, no_gspread_escape_headers,
    no_gspread_escape_update, no_gspread_escape_processes,
    no_gspread_escape_deactivate, no_gspread_escape_add,
    fun self url ic iv cu nv st st1 ws h =>
      update_record_total_catch self url ic iv cu nv st st1 ws h⟩

/-- C2 amended witness: the first conjunct applied to the concrete escaping
run of `get_sheet_records` under an injected non-client error. -/
theorem C2_amended_witness :
    PyExc.isGSpreadException .otherError = false :=
  C2_amended_error_catching.1 (SheetsHandler.mk (some ()) (some [])) "u"
    ⟨[("u", [[]])], [none, some .otherError]⟩ .otherError (by decide)

/-- C4: the claim asserts every public operation with no session returns its
sentinel without any remote call.  When the configuration is present this
holds, and the conclusion equates the whole post-state with the initial one
(even with a non-empty fault schedule no fault is consumed, i.e. no remote
call is issued).  But when the configuration is also absent — which the claim
allows — the three default-address operations raise `AttributeError` instead
of returning their sentinel, as the final conjunct shows. -/
theorem C4_authentication_gating_code_bug :
    (∀ (cfg : Config) (url : String) (st : RemoteState),
      (SheetsHandler.mk none (some cfg)).get_sheet_records url st =
        ⟨.ok [], ⟨none, some cfg⟩, st⟩) ∧
    (∀ (cfg : Config) (url : String) (st : RemoteState),
      (SheetsHandler.mk none (some cfg)).get_sheet_headers url st =
        ⟨.ok [], ⟨none, some cfg⟩, st⟩) ∧
    (∀ (cfg : Config) (url ic : String) (iv : PyValue) (cu nv : String)
        (st : RemoteState),
      (SheetsHandler.mk none (some cfg)).update_record url ic iv cu nv st =
        ⟨.ok false, ⟨none, some cfg⟩, st⟩) ∧
    (∀ (cfg : Config) (st : RemoteState),
      (SheetsHandler.mk none (some cfg)).get_all_process_numbers st =
        ⟨.ok [], ⟨none, some cfg⟩, st⟩) ∧
    (∀ (cfg : Config) (st : RemoteState),
      (SheetsHandler.mk none (some cfg)).deactivate_all_processes st =
        ⟨.ok (false, none), ⟨none, some cfg⟩, st⟩) ∧
    (∀ (cfg : Config) (vals : List String) (st : RemoteState),
      (SheetsHandler.mk none (some cfg)).add_new_process vals st =
        ⟨.ok false, ⟨none, some cfg⟩, st⟩) ∧
    ((SheetsHandler.mk none none).deactivate_all_processes stEmpty).result =
      .error .attributeError :=
  ⟨fun _ _ _ => rfl, fun _ _ _ => rfl, fun _ _ _ _ _ _ _ => rfl,
    fun _ _ => rfl, fun _ _ => rfl, fun _ _ _ => rfl, rfl⟩

/-- C9: no data operation modifies the handler object itself — the returned
handler (Python `self`, with its `config` and `gc` fields) is exactly the one
the operation was called on, whether the call succeeds, fails with a
sentinel, or escapes with an exception. -/
theorem C9_data_operations_preserve_handler :
    (∀ (self : SheetsHandler) (url : String) (st : RemoteState),
      (self.get_sheet_records url st).handler = self) ∧
    (∀ (self : SheetsHandler) (url : String) (st : RemoteState),
      (self.get_sheet_headers url st).handler = self) ∧
    (∀ (self : SheetsHandler) (url ic : String) (iv : PyValue) (cu nv : String)
        (st : RemoteState),
      (self.update_record url ic iv cu nv st).handler = self) ∧
    (∀ (self : SheetsHandler) (st : RemoteState),
      (self.get_all_process_numbers st).handler = self) ∧
    (∀ (self : SheetsHandler) (st : RemoteState),
      (self.deactivate_all_processes st).handler = self) ∧
    (∀ (self : SheetsHandler) (vals : List String) (st : RemoteState),
      (self.add_new_process vals st).handler = self) :=
  ⟨get_sheet_records_handler, get_sheet_headers_handler, update_record_handler,
    get_all_process_numbers_handler, deactivate_all_processes_handler,
    add_new_process_handler⟩

/-- C3 counterexample: the claim asserts `update_record` locates the header
cell by scanning row 1 only, and fails with `false` when `identifierColumn`
is absent from row 1 even if a cell outside row 1 holds that value.  On the
worksheet below, `"numero_proceso"` occurs only at row 2 column 1, yet the
code (which uses a whole-sheet `worksheet.find`) uses that cell's column,
finds the identifier value in row 3, and succeeds — returning `true` and
writing the cell — instead of returning `false`. -/
theorem C3_counterexample_header_outside_row1 :
    (SheetsHandler.mk (some ()) (some [])).update_record "url1" "numero_proceso"
        (.str "SIP-1") "b" "Z"
        ⟨[("url1", [["a", "b"], ["numero_proceso", "x"], ["SIP-1", "y"]])], []⟩ =
      ⟨.ok true, ⟨some (), some []⟩,
        ⟨[("url1", [["a", "b"], ["numero_proceso", "x"], ["SIP-1", "Z"]])], []⟩⟩ := by
  decide

/-- C3 amended: the header cell is located by scanning the whole worksheet in
row-major order for the first cell equal to `identifierColumn` (gspread
`worksheet.find` without `in_row`), not row 1 only; the operation fails with
`false` (and the remote state is unchanged) exactly when no cell anywhere in
the sheet equals `identifierColumn`. -/
theorem C3_amended_whole_sheet_header_scan :
    (∀ (G : Grid) (v : String), findGridFrom G v 1 = none →
      ∀ r c : Nat, getCell G r c ≠ some v) ∧
    (∀ (G : Grid) (v : String) (cell : Cell), findGridFrom G v 1 = some cell →
      1 ≤ cell.row ∧ 1 ≤ cell.col ∧ getCell G cell.row cell.col = some v ∧
      ∀ r c : Nat, 1 ≤ r → 1 ≤ c →
        (r < cell.row ∨ (r = cell.row ∧ c < cell.col)) → getCell G r c ≠ some v) ∧
    (∀ (self : SheetsHandler) (url ic : String) (iv : PyValue) (cu nv : String)
        (st : RemoteState) (G : Grid),
      self.gc = some () → lookupSheet st url = some G → st.faults = [] →
      findGridFrom G ic 1 = none →
      self.update_record url ic iv cu nv st = ⟨.ok false, self, st⟩) := by
  refine ⟨?_, ?_, ?_⟩
  · intro G v h r c
    have hx := findGridFrom_none G v 1 h (r - 1) (c - 1)
    simpa [getCell] using hx
  · intro G v cell h
    obtain ⟨h1, h2, h3, h4, h5⟩ := findGridFrom_some G v 1 cell h
    refine ⟨h1, h2, by simpa [getCell] using h3, ?_⟩
    intro r c hr hc hlt
    rcases hlt with hlt | ⟨heq, hlt⟩
    · have hx := h4 (r - 1) (by omega) (c - 1)
      simpa [getCell] using hx
    · subst heq
      have hx := h5 (c - 1) (by omega)
      simpa [getCell] using hx
  · intro self url ic iv cu nv st G hgc hl hf hfind
    exact update_record_of_findNone self url ic iv cu nv st G hgc hl hf hfind

/-- C3 amended witness: the third conjunct applied to a concrete worksheet
where the identifier column name occurs nowhere. -/
theorem C3_amended_witness :
    (SheetsHandler.mk (some ()) (some [])).update_record "u" "zzz" (.str "a") "b" "c"
        ⟨[("u", [["x"]])], []⟩ =
      ⟨.ok false, ⟨some (), some []⟩, ⟨[("u", [["x"]])], []⟩⟩ :=
  C3_amended_whole_sheet_header_scan.2.2 (SheetsHandler.mk (some ()) (some []))
    "u" "zzz" (.str "a") "b" "c" ⟨[("u", [["x"]])], []⟩ [["x"]]
    rfl (by decide) rfl (by decide)

/-- C5: on a fault-free remote, if the column located for `identifierColumn`
contains no cell (header row included) equal to the string form of
`identifierValue`, then `update_record` returns `false` and the remote state
is completely unchanged — no cell is mutated. -/
theorem C5_update_miss_no_mutation
    (self : SheetsHandler) (url ic : String) (iv : PyValue) (cu nv : String)
    (st : RemoteState) (G : Grid)
    (hgc : self.gc = some ()) (hl : lookupSheet st url = some G)
    (hf : st.faults = [])
    (hmiss : ∀ cell : Cell, findGridFrom G ic 1 = some cell →
      ∀ row ∈ G, row[cell.col - 1]? ≠ some iv.pyStr) :
    self.update_record url ic iv cu nv st = ⟨.ok false, self, st⟩ := by
  cases hfind : findGridFrom G ic 1 with
  | none => exact update_record_of_findNone self url ic iv cu nv st G hgc hl hf hfind
  | some hc =>
    refine update_record_of_colMiss self url ic iv cu nv st G hc hgc hl hf hfind ?_
    apply findColFrom_none_of
    intro i
    cases hgi : G[i]? with
    | none => simp
    | some row =>
      have hm := hmiss hc hfind row (List.getElem?_mem hgi)
      simpa using hm

/-- C5 witness: an identifier value absent from the identifier column of the
example worksheet leaves the worksheet untouched and yields `false`. -/
theorem C5_witness :
    (SheetsHandler.mk (some ()) (some [])).update_record "u" "numero_proceso"
        (.str "MISSING") "objeto_proceso" "Z" ⟨[("u", gDemo)], []⟩ =
      ⟨.ok false, ⟨some (), some []⟩, ⟨[("u", gDemo)], []⟩⟩ :=
  C5_update_miss_no_mutation (SheetsHandler.mk (some ()) (some []))
    "u" "numero_proceso" (.str "MISSING") "objeto_proceso" "Z"
    ⟨[("u", gDemo)], []⟩ gDemo rfl (by decide) rfl (by decide)

/-- C6: on the specification's worksheet, `update_record` writes the new value
into the target cell and returns `true`; with duplicated identifier values
the first matching cell in the column wins; an integer identifier value is
matched against its string form; and in general the column scan used by
`update_record` returns the topmost matching cell of the column. -/
theorem C6_update_record_correct :
    ((SheetsHandler.mk (some ()) (some [])).update_record "url1" "numero_proceso"
        (.str "SIP-046-2025") "objeto_proceso" "Nuevo objeto"
        ⟨[("url1", gDemo)], []⟩ =
      ⟨.ok true, ⟨some (), some []⟩,
        ⟨[("url1", [["numero_proceso", "objeto_proceso"],
          ["SIP-046-2025", "Nuevo objeto"]])], []⟩⟩) ∧
    ((SheetsHandler.mk (some ()) (some [])).update_record "url1" "numero_proceso"
        (.str "SIP-046-2025") "objeto_proceso" "Z" ⟨[("url1", gDup)], []⟩ =
      ⟨.ok true, ⟨some (), some []⟩,
        ⟨[("url1", [["numero_proceso", "objeto_proceso"],
          ["SIP-046-2025", "Z"], ["SIP-046-2025", "Y"]])], []⟩⟩) ∧
    ((SheetsHandler.mk (some ()) (some [])).update_record "url1" "numero_proceso"
        (.int 42) "objeto_proceso" "Z"
        ⟨[("url1", [["numero_proceso", "objeto_proceso"], ["42", "X"]])], []⟩ =
      ⟨.ok true, ⟨some (), some []⟩,
        ⟨[("url1", [["numero_proceso", "objeto_proceso"], ["42", "Z"]])], []⟩⟩) ∧
    (∀ (G : Grid) (v : String) (c : Nat) (cell : Cell),
      findColFrom G v c 1 = some cell →
      cell.col = c ∧ getCell G cell.row c = some v ∧
      ∀ r : Nat, 1 ≤ r → r < cell.row → getCell G r c ≠ some v) := by
  refine ⟨by decide, by decide, by decide, ?_⟩
  intro G v c cell h
  obtain ⟨hc, hr, hget, hlt⟩ := findColFrom_some G v c 1 cell h
  refine ⟨hc, by simpa [getCell] using hget, ?_⟩
  intro r h1 h2
  have hx := hlt (r - 1) (by omega)
  simpa [getCell] using hx

/-- C6 witness: the first-match conjunct applied to the duplicated worksheet,
where the column scan returns row 2 (the topmost match). -/
theorem C6_witness :
    (⟨2, 1⟩ : Cell).col = 1 ∧ getCell gDup 2 1 = some "SIP-046-2025" ∧
    ∀ r : Nat, 1 ≤ r → r < (⟨2, 1⟩ : Cell).row →
      getCell gDup r 1 ≠ some "SIP-046-2025" :=
  C6_update_record_correct.2.2.2 gDup "SIP-046-2025" 1 ⟨2, 1⟩ (by decide)

/-- C7: on a fault-free remote, `deactivate_all_processes` overwrites exactly
the cells of column 10 equal to `"SI"` with `"NO"`, leaves every other cell
untouched, returns `true`, and the printed count equals the number of rows
whose column 10 held `"SI"` — precisely the cells changed. -/
theorem C7_deactivation_sweep
    (self : SheetsHandler) (cfg : Config) (url : String) (G : Grid)
    (st : RemoteState) (hgc : self.gc = some ()) (hcfg : self.config = some cfg)
    (hurl : cfgGet cfg "procesos_sheet_url" = some url)
    (hl : lookupSheet st url = some G) (hf : st.faults = []) :
    ∃ st2 G2,
      self.deactivate_all_processes st =
        ⟨.ok (true, some (G.countP (fun row => decide (row[9]? = some "SI")))),
          self, st2⟩ ∧
      lookupSheet st2 url = some G2 ∧
      (∀ r c : Nat, getCell G2 r c =
        if c = 10 ∧ getCell G r 10 = some "SI" then some "NO" else getCell G r c) ∧
      st2.faults = st.faults ∧
      (∀ u : String, u ≠ url → lookupSheet st2 u = lookupSheet st u) := by
  obtain ⟨st2, heq, hf2, hl2, hoth⟩ := deactivate_run self cfg url G st hgc hcfg hurl hl hf
  refine ⟨st2, G.map deactivateRow, heq, hl2,
    fun r c => getCell_map_deactivateRow G r c, ?_, hoth⟩
  rw [hf2, hf]

/-- C7 witness: the sweep on the mixed three-row worksheet `gAct`. -/
theorem C7_witness :
    ∃ st2 G2,
      hSession.deactivate_all_processes ⟨[("purl", gAct)], []⟩ =
        ⟨.ok (true, some (gAct.countP (fun row => decide (row[9]? = some "SI")))),
          hSession, st2⟩ ∧
      lookupSheet st2 "purl" = some G2 ∧
      (∀ r c : Nat, getCell G2 r c =
        if c = 10 ∧ getCell gAct r 10 = some "SI" then some "NO"
        else getCell gAct r c) ∧
      st2.faults = (⟨[("purl", gAct)], []⟩ : RemoteState).faults ∧
      (∀ u : String, u ≠ "purl" →
        lookupSheet st2 u = lookupSheet ⟨[("purl", gAct)], []⟩ u) :=
  C7_deactivation_sweep hSession cfgP "purl" gAct ⟨[("purl", gAct)], []⟩
    rfl rfl (by decide) (by decide) rfl

/-- C8 counterexample: the claim asserts `get_all_process_numbers` returns the
empty sequence on any failure.  But only the remote client's own exception
type is caught: a non-client error during the column read (injected by the
fault schedule after a successful open) escapes instead of yielding the
empty sequence. -/
theorem C8_counterexample_nonclient_read_error_escapes :
    (hSession.get_all_process_numbers
        ⟨[("purl", gProc)], [none, some .otherError]⟩).result =
      .error .otherError := by
  decide

/-- C8 amended: `get_all_process_numbers` reads column 1 of the worksheet at
the configured processes URL and returns its values in row order with the
header (first entry) excluded; it returns the empty sequence when the session
is absent, or when the spreadsheet is not found; on the example column it
returns exactly `["A", "B", "C"]`.  (A missing configuration raises
`AttributeError` and a non-client read error escapes, so "empty on any
failure" does not hold in general.) -/
theorem C8_amended_process_numbers :
    (∀ (self : SheetsHandler) (cfg : Config) (url : String) (G : Grid)
        (st : RemoteState),
      self.gc = some () → self.config = some cfg →
      cfgGet cfg "procesos_sheet_url" = some url →
      lookupSheet st url = some G → st.faults = [] →
      self.get_all_process_numbers st =
        ⟨.ok ((G.map (fun row => (row[0]?).getD "")).drop 1), self, st⟩) ∧
    (∀ (cfg : Config) (st : RemoteState),
      (SheetsHandler.mk none (some cfg)).get_all_process_numbers st =
        ⟨.ok [], ⟨none, some cfg⟩, st⟩) ∧
    (∀ (self : SheetsHandler) (cfg : Config) (url : String) (st : RemoteState),
      self.gc = some () → self.config = some cfg →
      cfgGet cfg "procesos_sheet_url" = some url →
      lookupSheet st url = none → st.faults = [] →
      self.get_all_process_numbers st = ⟨.ok [], self, st⟩) ∧
    (hSession.get_all_process_numbers ⟨[("purl", gProc)], []⟩).result =
      .ok ["A", "B", "C"] := by
  refine ⟨?_, fun _ _ => rfl, ?_, by decide⟩
  · intro self cfg url G st hgc hcfg hurl hl hf
    unfold SheetsHandler.get_all_process_numbers
    simp only [hcfg, hurl, get_worksheet_ok self url st G hgc hf hl]
    simp only [rcColValues_ok url 1 st hf, getGrid_eq st url G hl]
    rfl
  · intro self cfg url st hgc hcfg hurl hl hf
    unfold SheetsHandler.get_all_process_numbers
    simp only [hcfg, hurl, get_worksheet_notfound self url st hgc hf hl]

/-- C8 amended witness: the first conjunct applied to the example worksheet. -/
theorem C8_amended_witness :
    hSession.get_all_process_numbers ⟨[("purl", gProc)], []⟩ =
      ⟨.ok ((gProc.map (fun row => (row[0]?).getD "")).drop 1), hSession,
        ⟨[("purl", gProc)], []⟩⟩ :=
  C8_amended_process_numbers.1 hSession cfgP "purl" gProc ⟨[("purl", gProc)], []⟩
    rfl rfl (by decide) (by decide) rfl

/-- C10: when no cell of column 10 equals `"SI"`, `deactivate_all_processes`
performs no write at all (the remote state is completely unchanged), still
returns `true`, and prints a count of 0 — so a `true` return does not imply
any cell was changed. -/
theorem C10_deactivate_vacuous_success
    (self : SheetsHandler) (cfg : Config) (url : String) (G : Grid)
    (st : RemoteState) (hgc : self.gc = some ()) (hcfg : self.config = some cfg)
    (hurl : cfgGet cfg "procesos_sheet_url" = some url)
    (hl : lookupSheet st url = some G) (hf : st.faults = [])
    (hSI : ∀ row ∈ G, row[9]? ≠ some "SI") :
    self.deactivate_all_processes st = ⟨.ok (true, some 0), self, st⟩ := by
  unfold SheetsHandler.deactivate_all_processes
  simp only [hcfg, hurl, get_worksheet_ok self url st G hgc hf hl]
  unfold deactivateTry
  simp only [rcFindall_ok url "SI" 10 st hf, getGrid_eq st url G hl]
  have hnil : findallColFrom G "SI" 10 1 = [] := by
    apply findallColFrom_nil_of
    intro i
    cases hgi : G[i]? with
    | none => simp
    | some row =>
      have hm := hSI row (List.getElem?_mem hgi)
      simpa using hm
  simp only [hnil]
  rfl

/-- C10 witness: the vacuous sweep on a worksheet with no `"SI"` anywhere. -/
theorem C10_witness :
    hSession.deactivate_all_processes ⟨[("purl", gNoSI)], []⟩ =
      ⟨.ok (true, some 0), hSession, ⟨[("purl", gNoSI)], []⟩⟩ :=
  C10_deactivate_vacuous_success hSession cfgP "purl" gNoSI
    ⟨[("purl", gNoSI)], []⟩ rfl rfl (by decide) (by decide) rfl (by decide)

end Prueba
